import Mathlib

set_option maxRecDepth 8000

/-!
Shallow embedding of the repository-replication pipeline of this toolkit:
`core/svn.py` (SVNClient), `modules/unity/repo_sync.py` (RepoSyncer) and
`modules/unity/sync_between_repos.py` (SVNRepoSync).

Conventions of the embedding:
* a working copy is a flat association list from repo-relative paths to file
  contents (directories are implicit, so `ensure_dir`/`os.makedirs` have no
  observable effect in the model);
* the `os.path.join(root, rel)` prefixing with the fixed working-copy root is
  dropped: paths are kept repo-relative;
* external `svn` verbs issued against the target are recorded in a command
  trace (`SvnCmd`); outcomes of external commands are parameters of the model;
* Python exceptions are `Except`/`Option` error values; a `try/except` block
  that swallows an exception turns the error value back into a normal result.
-/

/-- Association-list lookup for a working-copy file map. -/
def fsGet (fs : List (String × String)) (p : String) : Option String :=
  match fs with
  | [] => none
  | (q, v) :: rest => if q = p then some v else fsGet rest p

/-- Write (create or overwrite) a file in the working-copy map. -/
def fsSet (fs : List (String × String)) (p v : String) : List (String × String) :=
  (fs.filter (fun e => e.1 ≠ p)) ++ [(p, v)]

/-- Remove a file from the working-copy map. -/
def fsErase (fs : List (String × String)) (p : String) : List (String × String) :=
  fs.filter (fun e => e.1 ≠ p)

/-- Python `str.strip()` on a character list (ASCII whitespace). -/
def pyStrip (cs : List Char) : List Char :=
  ((cs.dropWhile Char.isWhitespace).reverse.dropWhile Char.isWhitespace).reverse

/-- Python `str.strip()` on a `String`. -/
def pyStripS (s : String) : String :=
  String.mk (pyStrip s.data)

/-- Python `str.split('\n')`: `""` gives `[""]`, separators delimit possibly
empty fields. -/
def splitNl : List Char → List (List Char)
  | [] => [[]]
  | c :: rest =>
    match splitNl rest with
    | h :: t => if c = '\n' then [] :: h :: t else (c :: h) :: t
    | [] => [[c]]

/-- Python `line.startswith(xy)` for a two-character literal `xy`. -/
def startsWith2 (a b : Char) (l : List Char) : Bool :=
  match l with
  | c1 :: c2 :: _ => c1 == a && c2 == b
  | _ => false

/-- Result of one external command: captured stdout, stderr and exit status
(`subprocess` return code). -/
structure CmdResult where
  stdout : String
  stderr : String
  code : Int
deriving DecidableEq

/-- External `svn` verbs issued against the target working copy during a run.
`revert` is a verb the target client exposes but the pipeline never issues. -/
inductive SvnCmd where
  | add (paths : List String)
  | delete (paths : List String)
  | commit (message : String) (paths : List String)
  | revert (paths : List String)
deriving DecidableEq

/-! ## core/svn.py — SVNClient -/

/-- `SVNClient._run_command` (svn.py lines 19-29): the argument vector actually
handed to the child process.  `if self.username:` / `if self.password:` are
Python truthiness tests, so `None` and `""` both skip the extension. -/
def runCommandArgv (command : List String) (username password : Option String) :
    List String :=
  let c1 := match username with
    | some u => if u = "" then command else command ++ ["--username", u]
    | none => command
  match password with
  | some p => if p = "" then c1 else c1 ++ ["--password", p]
  | none => c1

/-- `SVNClient.checkout` command vector (svn.py lines 41-54). -/
def checkoutCmd (url : String) (path : Option String) : List String :=
  ["svn", "checkout", url] ++ path.toList

/-- `SVNClient.update` command vector (svn.py lines 56-63). -/
def updateCmd (path : Option String) : List String :=
  ["svn", "update"] ++ path.toList

/-- `SVNClient.commit` command vector (svn.py lines 65-78); `if paths:` means
`None` and `[]` both add nothing. -/
def commitCmd (message : String) (paths : Option (List String)) : List String :=
  ["svn", "commit", "-m", message] ++ (match paths with
    | some ps => ps
    | none => [])

/-- `SVNClient.add` command vector (svn.py lines 80-84). -/
def addCmd (paths : List String) : List String :=
  ["svn", "add"] ++ paths

/-- `SVNClient.delete` command vector (svn.py lines 86-94). -/
def deleteCmd (paths : List String) (force : Bool) : List String :=
  ["svn", "delete"] ++ (if force then ["--force"] else []) ++ paths

/-- `SVNClient.status` command vector (svn.py lines 96-103). -/
def statusCmd (path : Option String) : List String :=
  ["svn", "status"] ++ path.toList

/-- `SVNClient.log` command vector (svn.py lines 105-114); `if limit:` is a
truthiness test, so a limit of `0` adds nothing. -/
def logCmd (limit : Option Nat) (path : Option String) : List String :=
  ["svn", "log"] ++ (match limit with
    | some n => if n = 0 then [] else ["-l", toString n]
    | none => []) ++ path.toList

/-- `SVNClient.info` command vector (svn.py lines 143-150). -/
def infoCmd (path : Option String) : List String :=
  ["svn", "info"] ++ path.toList

/-- `SVNClient.list_files` command vector (svn.py lines 152-159). -/
def listFilesCmd (url : Option String) : List String :=
  ["svn", "list"] ++ url.toList

/-- `SVNClient.log` return value (svn.py lines 105-114): the stripped stdout of
the child process; the exit status is discarded (`stdout, _, _ = ...`). -/
def svnClientLog (r : CmdResult) : String :=
  pyStripS r.stdout

namespace RepoSyncer

/-- One parsed change of `RepoSyncer.parse_log_entry` (repo_sync.py lines
35-39): the dict `{'revision': current_revision, 'action': ..., 'path': ...}`;
`revision` is `Option` because `current_revision` starts as Python `None`. -/
structure Change where
  revision : Option String
  action : String
  path : String
deriving DecidableEq

/-- `re.match(r'^r(\d+)', line)` (repo_sync.py line 26): a leading `r` followed
by at least one digit; the digits are the captured revision. -/
def revOfLine (l : List Char) : Option String :=
  match l with
  | 'r' :: rest =>
    let ds := rest.takeWhile Char.isDigit
    if ds.isEmpty then none else some (String.mk ds)
  | _ => none

/-- `line.startswith('A ') or line.startswith('M ') or line.startswith('D ')`
(repo_sync.py line 32). -/
def isChangeLine (l : List Char) : Bool :=
  startsWith2 'A' ' ' l || startsWith2 'M' ' ' l || startsWith2 'D' ' ' l

/-- The line loop of `RepoSyncer.parse_log_entry` (repo_sync.py lines 24-39),
carrying `current_revision` through the lines.  A revision line updates the
carried revision (`continue`); a change line appends a record whose revision is
the carried value, action is `line[0]` and path is `line[2:].strip()`. -/
def parseLines : List (List Char) → Option String → List Change
  | [], _ => []
  | l :: ls, cur =>
    match revOfLine l with
    | some r => parseLines ls (some r)
    | none =>
      if isChangeLine l then
        ⟨cur, String.mk (l.take 1), String.mk (pyStrip (l.drop 2))⟩ :: parseLines ls cur
      else
        parseLines ls cur

/-- The value of `current_revision` after scanning a list of lines starting
from `cur` (the revision a subsequent change line would inherit). -/
def lastMarker : List (List Char) → Option String → Option String
  | [], cur => cur
  | l :: ls, cur =>
    match revOfLine l with
    | some r => lastMarker ls (some r)
    | none => lastMarker ls cur

/-- `RepoSyncer.parse_log_entry` (repo_sync.py lines 19-41):
`log_output.split('\n')` scanned with `current_revision = None`. -/
def parse_log_entry (log_output : String) : List Change :=
  parseLines (splitNl log_output.data) none

/-- Run state of `RepoSyncer.sync_changes`: the target working copy, the trace
of `svn` commands issued against the target, and the `files_to_commit` list. -/
structure SyncState where
  fs2 : List (String × String)
  cmds : List SvnCmd
  files_to_commit : List String
deriving DecidableEq

/-- The state at the start of a run: empty target working copy, no commands
issued, empty `files_to_commit`. -/
def initState : SyncState := ⟨[], [], []⟩

/-- Inputs of one `RepoSyncer.sync_changes` run that the model treats as
external: the result of `repo1.log(limit=100)`, the source working copy read
by `ioutil.copy_file`, the exit outcome of `svn delete` per path, and the exit
outcome of the final `svn commit`. -/
structure SyncEnv where
  logResult : CmdResult
  srcFs : List (String × String)
  delOk : String → Bool
  commitOk : Bool

/-- One iteration of the change loop (repo_sync.py lines 53-74).
`A`/`M`: `ensure_dir` (no observable effect in the flat model), then
`ioutil.copy_file` — `shutil.copy2` raises `FileNotFoundError` when the source
path is absent, modelled as the error component — then `svn add` for `A` only
(its return value is discarded), then append to `files_to_commit`.
`D`: only when `os.path.exists(dst_path)`, issue `svn delete` (return value
discarded, so the path is appended to `files_to_commit` even if the delete
command failed).  Any other action string falls through the `if/elif`. -/
def applyChange (srcFs : List (String × String)) (delOk : String → Bool)
    (change : Change) (st : SyncState) : SyncState × Option String :=
  if change.action = "A" ∨ change.action = "M" then
    match fsGet srcFs change.path with
    | none => (st, some "FileNotFoundError")
    | some content =>
      if change.action = "A" then
        ({ st with fs2 := fsSet st.fs2 change.path content,
                   cmds := st.cmds ++ [SvnCmd.add [change.path]],
                   files_to_commit := st.files_to_commit ++ [change.path] }, none)
      else
        ({ st with fs2 := fsSet st.fs2 change.path content,
                   files_to_commit := st.files_to_commit ++ [change.path] }, none)
  else if change.action = "D" then
    if (fsGet st.fs2 change.path).isSome then
      if delOk change.path then
        ({ st with fs2 := fsErase st.fs2 change.path,
                   cmds := st.cmds ++ [SvnCmd.delete [change.path]],
                   files_to_commit := st.files_to_commit ++ [change.path] }, none)
      else
        ({ st with cmds := st.cmds ++ [SvnCmd.delete [change.path]],
                   files_to_commit := st.files_to_commit ++ [change.path] }, none)
    else (st, none)
  else (st, none)

/-- The `for change in changes` loop (repo_sync.py lines 53-74).  The loop body
runs inside the single `try` of `sync_changes`, so the first raised exception
stops the loop; the state reached so far is kept (filesystem effects are
real). -/
def syncLoop (srcFs : List (String × String)) (delOk : String → Bool) :
    List Change → SyncState → SyncState × Option String
  | [], st => (st, none)
  | c :: cs, st =>
    match applyChange srcFs delOk c st with
    | (st1, none) => syncLoop srcFs delOk cs st1
    | (st1, some e) => (st1, some e)

/-- Fetch + parse + replay of `RepoSyncer.sync_changes` (repo_sync.py lines
47-74): `log_output = self.repo1.log(limit=100)`, `parse_log_entry`, then the
change loop. -/
def replayPhase (env : SyncEnv) (st0 : SyncState) : SyncState × Option String :=
  syncLoop env.srcFs env.delOk (parse_log_entry (svnClientLog env.logResult)) st0

/-- `RepoSyncer.sync_changes` (repo_sync.py lines 43-87).  A raised exception
anywhere inside the `try` is caught at the function boundary (`except
Exception`), printed and converted into the return value `False`.  Otherwise:
if `files_to_commit` is non-empty the final `svn commit` is issued and its
boolean outcome returned; if it is empty no commit is issued and the function
returns `True`. -/
def sync_changes (env : SyncEnv) (st0 : SyncState) : Bool × SyncState :=
  match replayPhase env st0 with
  | (st, some _) => (false, st)
  | (st, none) =>
    if st.files_to_commit = [] then (true, st)
    else
      (env.commitOk,
        { st with cmds :=
            st.cmds ++ [SvnCmd.commit "Synced changes from repo1" st.files_to_commit] })

end RepoSyncer

namespace SVNRepoSync

/-! The regular expressions of `SVNRepoSync.get_recent_commits`
(sync_between_repos.py lines 78-101) are embedded as explicit scanning
functions over character lists.  All the patterns used are of two shapes:
`lit1.*?>(.*?)lit2` with `re.DOTALL` (lazy: the first `>` after the first
occurrence of `lit1`, then everything up to the first occurrence of `lit2`),
and `key="(run)"` (the first occurrence of `key="` followed by a non-empty run
of accepted characters closed by `"`). -/

/-- Is `pat` a prefix of `s`? -/
def listMatch : List Char → List Char → Bool
  | [], _ => true
  | _ :: _, [] => false
  | p :: ps, c :: cs => p == c && listMatch ps cs

/-- Split `s` around the first occurrence of the (non-empty) literal `pat`:
`some (before, after)` with `s = before ++ pat ++ after`, or `none` when `pat`
does not occur. -/
def listBreakOn (pat : List Char) : List Char → Option (List Char × List Char)
  | [] => none
  | c :: cs =>
    if listMatch pat (c :: cs) then some ([], (c :: cs).drop pat.length)
    else
      match listBreakOn pat cs with
      | some (pre, post) => some (c :: pre, post)
      | none => none

/-- `re.findall(r"openTag.*?>(.*?)closeTag", s, re.DOTALL)`: each captured
group is the text between the first `>` after an occurrence of `openTag` and
the next `closeTag`; scanning resumes after the `closeTag`.  `fuel` bounds the
recursion (each step consumes at least the matched literals, so any
`fuel ≥ s.length + 1` computes the full list). -/
def findallTag (openTag closeTag : List Char) : Nat → List Char → List (List Char)
  | 0, _ => []
  | fuel + 1, s =>
    match listBreakOn openTag s with
    | none => []
    | some (_, afterOpen) =>
      match listBreakOn ['>'] afterOpen with
      | none => []
      | some (_, body) =>
        match listBreakOn closeTag body with
        | none => []
        | some (grp, rest) => grp :: findallTag openTag closeTag fuel rest

/-- `re.search(r"openLit(.*?)closeLit", s, re.DOTALL)` for literal delimiters:
the text between the first occurrence of `openLit` and the next `closeLit`. -/
def searchBetween (openLit closeLit : List Char) (s : List Char) :
    Option (List Char) :=
  match listBreakOn openLit s with
  | none => none
  | some (_, rest) =>
    match listBreakOn closeLit rest with
    | none => none
    | some (grp, _) => some grp

/-- `re.search(r'key="(X+)"', s)` where `X` is the character class accepted by
`good` (`\d` or `\w`): scan for an occurrence of `key="` followed by a
non-empty run of accepted characters that is closed by `"`. -/
def searchAttrRun (key : List Char) (good : Char → Bool) :
    Nat → List Char → Option (List Char)
  | 0, _ => none
  | fuel + 1, s =>
    match listBreakOn key s with
    | none => none
    | some (_, rest) =>
      let run := rest.takeWhile good
      if run.isEmpty then searchAttrRun key good fuel rest
      else if (rest.drop run.length).head? = some '\"' then some run
      else searchAttrRun key good fuel rest

/-- Python `\w` on ASCII: letters, digits and underscore. -/
def isWordChar (c : Char) : Bool :=
  c.isAlphanum || c = '_'

/-- One element of a commit's `changed_paths` (sync_between_repos.py line 96):
the dict `{"path": ..., "action": ...}`. -/
structure PathChange where
  path : String
  action : String
deriving DecidableEq

/-- One element of the `commits` list (sync_between_repos.py line 98): the dict
`{"revision": ..., "changed_paths": ...}`. -/
structure Commit where
  revision : String
  changed_paths : List PathChange
deriving DecidableEq

/-- The body of the `for path_entry in path_entries` loop (sync_between_repos.py
lines 91-96).  Line 92 computes `action_match`; line 93 unconditionally calls
`.group(1)` on `re.search(r">(.*?)</path>", path_entry)`, which raises
`AttributeError` when that search fails; line 95 uppercases the matched
action. -/
def parsePathEntry (pe : List Char) : Except String (Option PathChange) :=
  let action_match := searchAttrRun "action=\"".data isWordChar (pe.length + 1) pe
  match searchBetween ['>'] "</path>".data pe with
  | none => Except.error "AttributeError"
  | some path_value =>
    match action_match with
    | some a => Except.ok (some ⟨String.mk path_value, (String.mk a).toUpper⟩)
    | none => Except.ok none

/-- The `for path_entry in path_entries` loop: the first raised exception
aborts the whole call; entries without an `action` attribute are skipped. -/
def collectPaths : List (List Char) → Except String (List PathChange)
  | [] => Except.ok []
  | pe :: pes => do
    let r ← parsePathEntry pe
    let rest ← collectPaths pes
    match r with
    | some ch => Except.ok (ch :: rest)
    | none => Except.ok rest

/-- The body of the `for block in commit_blocks` loop (sync_between_repos.py
lines 82-98): a block without a `revision="…"` match contributes nothing; a
block without a `<paths>…</paths>` section contributes a commit with empty
`changed_paths`. -/
def parseLogentryBlock (block : List Char) : Except String (Option Commit) :=
  match searchAttrRun "revision=\"".data Char.isDigit (block.length + 1) block with
  | none => Except.ok none
  | some rev =>
    match searchBetween "<paths>".data "</paths>".data block with
    | none => Except.ok (some ⟨String.mk rev, []⟩)
    | some paths_block => do
      let cps ← collectPaths
        (findallTag "<path".data "</path>".data (paths_block.length + 1) paths_block)
      Except.ok (some ⟨String.mk rev, cps⟩)

/-- The `for block in commit_blocks` loop of `get_recent_commits`. -/
def collectCommits : List (List Char) → Except String (List Commit)
  | [] => Except.ok []
  | b :: bs => do
    let r ← parseLogentryBlock b
    let rest ← collectCommits bs
    match r with
    | some c => Except.ok (c :: rest)
    | none => Except.ok rest

/-- `SVNRepoSync.get_recent_commits` (sync_between_repos.py lines 60-101) as a
function of the `svn log --xml` outcome: non-zero exit prints the error and
returns the empty commit list; otherwise the XML is scanned with the regular
expressions above.  An uncaught `AttributeError` is the error value. -/
def get_recent_commits (returnCode : Int) (stdout : String) :
    Except String (List Commit) :=
  if returnCode ≠ 0 then Except.ok []
  else
    collectCommits
      (findallTag "<logentry".data "</logentry>".data (stdout.data.length + 1) stdout.data)

/-- `SVNRepoSync.update_repo` (sync_between_repos.py lines 44-58): a non-zero
exit of `svn update` raises `Exception(f"SVN update failed: {stderr}")`. -/
def update_repo (res : CmdResult) : Except String Unit :=
  if res.code = 0 then Except.ok ()
  else Except.error ("SVN update failed: " ++ res.stderr)

/-- `SVNRepoSync.commit_changes` (sync_between_repos.py lines 156-175): first
`svn add --force .` is issued and a non-zero exit is only printed (`addRes` is
otherwise unused); then `svn commit -m message` is issued and a non-zero exit
raises `Exception(f"SVN commit failed: {stderr}")`, re-raised by the outer
`except` block. -/
def commit_changes (addRes commitRes : CmdResult) : Except String Unit :=
  let _ := addRes
  if commitRes.code = 0 then Except.ok ()
  else Except.error ("SVN commit failed: " ++ commitRes.stderr)

/-- Python `change['path'].lstrip('/')` (sync_between_repos.py line 114). -/
def lstripSlash (s : String) : String :=
  String.mk (s.data.dropWhile (· = '/'))

/-- Run state of `SVNRepoSync.sync_changes`: the target working copy and the
trace of `svn` commands issued against it. -/
structure SvnSyncState where
  fs2 : List (String × String)
  cmds : List SvnCmd
deriving DecidableEq

/-- Empty target working copy, no commands issued. -/
def startState : SvnSyncState := ⟨[], []⟩

/-- The body of the `for change in commit['changed_paths']` loop
(sync_between_repos.py lines 112-141).  `cat` models `svn cat` on the source
path (`some` stdout on exit 0); `delOk` models the exit of `svn delete`.
`ADD`/`MODIFY`/`REPLACE`: `os.makedirs` (no observable effect in the flat
model), then on a successful `svn cat` the content is written to the target
path with its leading slashes stripped; a failed `svn cat` is only printed and
the loop continues.  `DELETE`: only when `os.path.exists`, `svn_delete` issues
`svn delete --force`; its failure raises, but the surrounding `except` catches
and prints it, so the loop continues.  Any other action is printed as skipped. -/
def applyChange (cat : String → Option String) (delOk : String → Bool)
    (change : PathChange) (st : SvnSyncState) : SvnSyncState :=
  if change.action = "ADD" ∨ change.action = "MODIFY" ∨ change.action = "REPLACE" then
    match cat change.path with
    | some content => { st with fs2 := fsSet st.fs2 (lstripSlash change.path) content }
    | none => st
  else if change.action = "DELETE" then
    if (fsGet st.fs2 (lstripSlash change.path)).isSome then
      if delOk (lstripSlash change.path) then
        { st with fs2 := fsErase st.fs2 (lstripSlash change.path),
                  cmds := st.cmds ++ [SvnCmd.delete [lstripSlash change.path]] }
      else
        { st with cmds := st.cmds ++ [SvnCmd.delete [lstripSlash change.path]] }
    else st
  else st

/-- One iteration of the outer `for commit in commits` loop: apply every
change of the commit in order. -/
def applyCommit (cat : String → Option String) (delOk : String → Bool)
    (c : Commit) (st : SvnSyncState) : SvnSyncState :=
  c.changed_paths.foldl (fun st1 ch => applyChange cat delOk ch st1) st

/-- `SVNRepoSync.sync_changes` (sync_between_repos.py lines 103-141): the
commits are processed strictly in order; every per-change failure is caught
inside the loop body, so the function is total. -/
def sync_changes (cat : String → Option String) (delOk : String → Bool) :
    List Commit → SvnSyncState → SvnSyncState
  | [], st => st
  | c :: cs, st => sync_changes cat delOk cs (applyCommit cat delOk c st)

end SVNRepoSync


/-! ## Concrete run scenarios used by the individual verification results -/

/-- C1 scenario: the source log announces two added files, but only the second
exists in the source working copy, so the first `ioutil.copy_file` raises
`FileNotFoundError`. -/
def env1 : RepoSyncer.SyncEnv :=
  { logResult := ⟨"r1\nA a.txt\nA b.txt", "", 0⟩
    srcFs := [("b.txt", "B")]
    delOk := fun _ => true
    commitOk := true }

/-- C1 scenario for the SVNRepoSync variant: `svn cat` fails for `/a.txt` and
succeeds for `/b.txt`. -/
def cat1 : String → Option String :=
  fun p => if p = "/b.txt" then some "B" else none

/-- C1 scenario commit: one commit touching `/a.txt` (whose download fails)
and then `/b.txt`. -/
def commit1 : SVNRepoSync.Commit :=
  ⟨"5", [⟨"/a.txt", "ADD"⟩, ⟨"/b.txt", "ADD"⟩]⟩

/-- C4 scenario: `svn log` exits non-zero with empty stdout. -/
def envLogFail : RepoSyncer.SyncEnv :=
  { logResult := ⟨"", "svn: E170013: Unable to connect to a repository", 1⟩
    srcFs := []
    delOk := fun _ => true
    commitOk := true }

/-- C5 scenario: the end-to-end source log of spec section 8.  The source
working copy holds `foo/bar.txt` at its revision-11 content (revision 12 only
deleted `baz.txt`, so the head content of `foo/bar.txt` is the revision-11
content that `ioutil.copy_file` reads); `baz.txt` is already gone from the
source and absent from the empty target. -/
def env5 : RepoSyncer.SyncEnv :=
  { logResult := ⟨"r10\nA foo/bar.txt\nr11\nM foo/bar.txt\nr12\nD baz.txt", "", 0⟩
    srcFs := [("foo/bar.txt", "content-at-r11")]
    delOk := fun _ => true
    commitOk := true }

/-- C6 scenario: replay `[Add "x", Delete "x"]` from the source log. -/
def env6 : RepoSyncer.SyncEnv :=
  { logResult := ⟨"r1\nA x\nr2\nD x", "", 0⟩
    srcFs := [("x", "cx")]
    delOk := fun _ => true
    commitOk := true }

/-- C7 scenario: one successful replayed add, then the final commit exits
non-zero. -/
def env7 : RepoSyncer.SyncEnv :=
  { logResult := ⟨"r1\nA x", "", 0⟩
    srcFs := [("x", "c")]
    delOk := fun _ => true
    commitOk := false }

/-- C8 scenario: empty log output, so nothing parses and nothing is
committed. -/
def env8 : RepoSyncer.SyncEnv :=
  { logResult := ⟨"", "", 0⟩
    srcFs := []
    delOk := fun _ => true
    commitOk := false }

/-- C10 failing input: a logentry block whose inner text carries a
`revision` attribute, so the path entries are actually reached. -/
def xmlCrash : String :=
  "<logentry><e revision=\"7\"/><paths><path action=\"add\">/foo.txt</path></paths></logentry>"

/-- C10 companion input shaped like real `svn log --xml` output: the
`revision` attribute sits inside the opening `<logentry ...>` tag. -/
def xmlReal : String :=
  "<logentry revision=\"3\"><paths><path action=\"add\">/foo.txt</path></paths></logentry>"


/-! ## Verification results

Helper lemmas first, then one theorem per claim of the specification review
(with witnesses / counterexamples where called for). -/

/-- Scanning a concatenation of line lists: the second part is parsed with the
revision marker carried over from the first part. -/
theorem parseLines_append (ls1 ls2 : List (List Char)) (cur : Option String) :
    RepoSyncer.parseLines (ls1 ++ ls2) cur =
      RepoSyncer.parseLines ls1 cur ++
        RepoSyncer.parseLines ls2 (RepoSyncer.lastMarker ls1 cur) := by
  induction ls1 generalizing cur with
  | nil => simp [RepoSyncer.parseLines, RepoSyncer.lastMarker]
  | cons l ls ih =>
    cases h : RepoSyncer.revOfLine l with
    | some r =>
      simp [RepoSyncer.parseLines, RepoSyncer.lastMarker, h, ih]
    | none =>
      by_cases hc : RepoSyncer.isChangeLine l <;>
        simp [RepoSyncer.parseLines, RepoSyncer.lastMarker, h, hc, ih]

/-- A line accepted by the `startswith` test of repo_sync.py line 32 has `A`,
`M` or `D` as its first character. -/
theorem isChangeLine_action (l : List Char) (h : RepoSyncer.isChangeLine l = true) :
    String.mk (l.take 1) = "A" ∨ String.mk (l.take 1) = "M" ∨
      String.mk (l.take 1) = "D" := by
  match l with
  | [] => simp [RepoSyncer.isChangeLine, startsWith2] at h
  | [c] => simp [RepoSyncer.isChangeLine, startsWith2] at h
  | c1 :: c2 :: t =>
    simp only [RepoSyncer.isChangeLine, startsWith2, Bool.or_eq_true,
      Bool.and_eq_true, beq_iff_eq] at h
    rcases h with (⟨h1, h2⟩ | ⟨h1, h2⟩) | ⟨h1, h2⟩
    · subst h1; exact Or.inl rfl
    · subst h1; exact Or.inr (Or.inl rfl)
    · subst h1; exact Or.inr (Or.inr rfl)

/-- Every record produced by the line loop carries action `A`, `M` or `D`. -/
theorem parseLines_actions (ls : List (List Char)) (cur : Option String)
    (r : RepoSyncer.Change) (hr : r ∈ RepoSyncer.parseLines ls cur) :
    r.action = "A" ∨ r.action = "M" ∨ r.action = "D" := by
  induction ls generalizing cur with
  | nil => simp [RepoSyncer.parseLines] at hr
  | cons l ls ih =>
    cases h : RepoSyncer.revOfLine l with
    | some rv =>
      rw [RepoSyncer.parseLines, h] at hr
      exact ih _ hr
    | none =>
      by_cases hc : RepoSyncer.isChangeLine l
      · rw [RepoSyncer.parseLines, h, if_pos hc] at hr
        rcases List.mem_cons.mp hr with hEq | hMem
        · subst hEq
          exact isChangeLine_action l hc
        · exact ih _ hMem
      · rw [RepoSyncer.parseLines, h, if_neg hc] at hr
        exact ih _ hr

/-- One replay step only ever appends an `svn add` or an `svn delete` to the
command trace. -/
theorem applyChange_cmds (srcFs : List (String × String)) (delOk : String → Bool)
    (c : RepoSyncer.Change) (st : RepoSyncer.SyncState) :
    (RepoSyncer.applyChange srcFs delOk c st).1.cmds = st.cmds ∨
    (RepoSyncer.applyChange srcFs delOk c st).1.cmds = st.cmds ++ [SvnCmd.add [c.path]] ∨
    (RepoSyncer.applyChange srcFs delOk c st).1.cmds = st.cmds ++ [SvnCmd.delete [c.path]] := by
  unfold RepoSyncer.applyChange
  repeat' split
  all_goals simp

/-- The replay loop never issues `svn revert` and never issues `svn commit`. -/
theorem syncLoop_cmds_clean (srcFs : List (String × String)) (delOk : String → Bool)
    (cs : List RepoSyncer.Change) (st : RepoSyncer.SyncState)
    (hrev : ∀ ps, SvnCmd.revert ps ∉ st.cmds)
    (hcom : ∀ m ps, SvnCmd.commit m ps ∉ st.cmds) :
    (∀ ps, SvnCmd.revert ps ∉ (RepoSyncer.syncLoop srcFs delOk cs st).1.cmds) ∧
    (∀ m ps, SvnCmd.commit m ps ∉ (RepoSyncer.syncLoop srcFs delOk cs st).1.cmds) := by
  induction cs generalizing st with
  | nil => exact ⟨hrev, hcom⟩
  | cons c cs ih =>
    have hstep := applyChange_cmds srcFs delOk c st
    have hrev1 : ∀ ps, SvnCmd.revert ps ∉ (RepoSyncer.applyChange srcFs delOk c st).1.cmds := by
      intro ps
      rcases hstep with h | h | h <;> rw [h] <;> simp [List.mem_append, hrev ps]
    have hcom1 : ∀ m ps, SvnCmd.commit m ps ∉ (RepoSyncer.applyChange srcFs delOk c st).1.cmds := by
      intro m ps
      rcases hstep with h | h | h <;> rw [h] <;> simp [List.mem_append, hcom m ps]
    rw [RepoSyncer.syncLoop]
    cases hap : RepoSyncer.applyChange srcFs delOk c st with
    | mk st1 err =>
      cases err with
      | none =>
        rw [hap] at hrev1 hcom1
        exact ih st1 hrev1 hcom1
      | some e =>
        rw [hap] at hrev1 hcom1
        exact ⟨hrev1, hcom1⟩

/-- C1 counterexample: with source log `r1\nA a.txt\nA b.txt` and a source
working copy containing only `b.txt`, the first record's content copy raises;
contrary to the claim, replay does not continue through the remaining records:
the run returns `False` and `b.txt` is never copied into the target. -/
theorem C1_counterexample :
    (RepoSyncer.sync_changes env1 RepoSyncer.initState).1 = false ∧
    fsGet (RepoSyncer.sync_changes env1 RepoSyncer.initState).2.fs2 "b.txt" = none :=
  ⟨rfl, rfl⟩

/-- C1 (amended): in `SVNRepoSync.sync_changes` every per-record failure is
caught inside the loop body, so processing always continues with the remaining
commits (first conjunct), and in particular a failed `svn cat` for one record
does not prevent a later record from being written (second conjunct); in
`RepoSyncer.sync_changes`, however, a record failure aborts the remaining
records — the exception is caught at the function boundary and converted into
the return value `False`, so no exception escapes to the caller (third
conjunct). -/
theorem C1_replay_failure_policy :
    (∀ (cat : String → Option String) (delOk : String → Bool)
        (c : SVNRepoSync.Commit) (cs : List SVNRepoSync.Commit)
        (st : SVNRepoSync.SvnSyncState),
      SVNRepoSync.sync_changes cat delOk (c :: cs) st =
        SVNRepoSync.sync_changes cat delOk cs (SVNRepoSync.applyCommit cat delOk c st)) ∧
    (fsGet (SVNRepoSync.sync_changes cat1 (fun _ => true) [commit1]
        SVNRepoSync.startState).fs2 "b.txt" = some "B") ∧
    (∀ (env : RepoSyncer.SyncEnv) (st0 st : RepoSyncer.SyncState) (e : String),
      RepoSyncer.replayPhase env st0 = (st, some e) →
      RepoSyncer.sync_changes env st0 = (false, st)) := by
  refine ⟨fun cat delOk c cs st => rfl, rfl, ?_⟩
  intro env st0 st e h
  simp [RepoSyncer.sync_changes, h]

/-- C1 witness: the abort-to-`False` conversion at the concrete scenario
`env1`, whose first record raises `FileNotFoundError` in the copy step. -/
theorem C1_witness :
    RepoSyncer.sync_changes env1 RepoSyncer.initState = (false, RepoSyncer.initState) :=
  C1_replay_failure_policy.2.2 env1 RepoSyncer.initState RepoSyncer.initState
    "FileNotFoundError" (by rfl)

/-- C2 counterexample: a change line before any revision marker is kept, with
a null (`none`) revision — it is not absent from the parser's output. -/
theorem C2_counterexample :
    RepoSyncer.parse_log_entry "A foo.txt" = [⟨none, "A", "foo.txt"⟩] ∧
    RepoSyncer.parse_log_entry "A foo.txt" ≠ [] :=
  ⟨rfl, by decide⟩

/-- C2 (amended): each parsed record inherits the most recently seen revision
marker — parsing a concatenation of line blocks parses the second block under
the marker carried out of the first (first conjunct), and a change line is
emitted with exactly the carried marker (second conjunct) — but a change line
encountered before any marker is retained with a null revision rather than
dropped: the carried marker starts as `none` (third conjunct). -/
theorem C2_revision_inheritance :
    (∀ (ls1 ls2 : List (List Char)) (cur : Option String),
      RepoSyncer.parseLines (ls1 ++ ls2) cur =
        RepoSyncer.parseLines ls1 cur ++
          RepoSyncer.parseLines ls2 (RepoSyncer.lastMarker ls1 cur)) ∧
    (∀ (l : List Char) (cur : Option String),
      RepoSyncer.revOfLine l = none → RepoSyncer.isChangeLine l = true →
      RepoSyncer.parseLines [l] cur =
        [⟨cur, String.mk (l.take 1), String.mk (pyStrip (l.drop 2))⟩]) ∧
    (∀ s : String,
      RepoSyncer.parse_log_entry s = RepoSyncer.parseLines (splitNl s.data) none) := by
  refine ⟨parseLines_append, ?_, fun s => rfl⟩
  intro l cur h hc
  rw [RepoSyncer.parseLines, h, if_pos hc, RepoSyncer.parseLines]

/-- C2 witness: the change line `A x.txt` with no preceding marker is emitted
with revision `none`. -/
theorem C2_witness :
    RepoSyncer.parseLines ["A x.txt".data] none =
      [⟨none, String.mk ("A x.txt".data.take 1),
          String.mk (pyStrip ("A x.txt".data.drop 2))⟩] :=
  C2_revision_inheritance.2.1 "A x.txt".data none (by rfl) (by rfl)

/-- C3 counterexample: change lines with action tokens `X` and `R` are not
retained in the parsed output at all — the line parser only accepts `A`, `M`
and `D`, so in particular a Replace-action line is not parsed. -/
theorem C3_counterexample :
    RepoSyncer.parse_log_entry "r1\nX a.txt\nR b.txt" = [] := by rfl

/-- C3 (amended): in the line-oriented parser every retained record has action
`A`, `M` or `D` — unrecognized tokens such as `X` and `R` are dropped from the
output entirely, hence never replayed (first conjunct); in the block-variant
replay, a record whose action is none of `ADD`/`MODIFY`/`REPLACE`/`DELETE` is
skipped with no effect on the target (second conjunct), and a `REPLACE` record
is replayed as a content write (third conjunct). -/
theorem C3_unknown_actions :
    (∀ (s : String) (r : RepoSyncer.Change), r ∈ RepoSyncer.parse_log_entry s →
      r.action = "A" ∨ r.action = "M" ∨ r.action = "D") ∧
    (∀ (cat : String → Option String) (delOk : String → Bool)
        (ch : SVNRepoSync.PathChange) (st : SVNRepoSync.SvnSyncState),
      ch.action ≠ "ADD" → ch.action ≠ "MODIFY" → ch.action ≠ "REPLACE" →
      ch.action ≠ "DELETE" → SVNRepoSync.applyChange cat delOk ch st = st) ∧
    (∀ (cat : String → Option String) (delOk : String → Bool)
        (ch : SVNRepoSync.PathChange) (st : SVNRepoSync.SvnSyncState) (content : String),
      ch.action = "REPLACE" → cat ch.path = some content →
      SVNRepoSync.applyChange cat delOk ch st =
        { st with fs2 := fsSet st.fs2 (SVNRepoSync.lstripSlash ch.path) content }) := by
  refine ⟨fun s r hr => parseLines_actions _ _ r hr, ?_, ?_⟩
  · intro cat delOk ch st h1 h2 h3 h4
    simp [SVNRepoSync.applyChange, h1, h2, h3, h4]
  · intro cat delOk ch st content h hcat
    simp [SVNRepoSync.applyChange, h, hcat]

/-- C3 witness: the record parsed from `r1\nA x` indeed carries one of the
three accepted actions. -/
theorem C3_witness :
    (⟨some "1", "A", "x"⟩ : RepoSyncer.Change).action = "A" ∨
    (⟨some "1", "A", "x"⟩ : RepoSyncer.Change).action = "M" ∨
    (⟨some "1", "A", "x"⟩ : RepoSyncer.Change).action = "D" :=
  C3_unknown_actions.1 "r1\nA x" ⟨some "1", "A", "x"⟩ (by decide)

/-- C4 counterexample: a failed log fetch is not fatal.  With `svn log`
exiting non-zero, `RepoSyncer.sync_changes` proceeds on the (empty) captured
stdout and reports success, and `SVNRepoSync.get_recent_commits` returns the
empty commit list — the run continues exactly as if the log were empty. -/
theorem C4_counterexample :
    RepoSyncer.sync_changes envLogFail RepoSyncer.initState = (true, RepoSyncer.initState) ∧
    SVNRepoSync.get_recent_commits 1 "" = Except.ok [] :=
  ⟨rfl, rfl⟩

/-- C4 (amended): a `CommandFailed` during the update or commit stage is fatal
— `SVNRepoSync.update_repo` and `SVNRepoSync.commit_changes` raise (first two
conjuncts) — but a failed log fetch is swallowed: `SVNClient.log` returns the
captured stdout with the exit status discarded (third conjunct), and
`SVNRepoSync.get_recent_commits` converts a non-zero exit into an empty commit
list (fourth conjunct), so the pipeline continues as if the log were empty. -/
theorem C4_stage_failures :
    (∀ res : CmdResult, res.code ≠ 0 →
      SVNRepoSync.update_repo res = Except.error ("SVN update failed: " ++ res.stderr)) ∧
    (∀ addRes commitRes : CmdResult, commitRes.code ≠ 0 →
      SVNRepoSync.commit_changes addRes commitRes =
        Except.error ("SVN commit failed: " ++ commitRes.stderr)) ∧
    (∀ res : CmdResult, svnClientLog res = pyStripS res.stdout) ∧
    (∀ (rc : Int) (stdout : String), rc ≠ 0 →
      SVNRepoSync.get_recent_commits rc stdout = Except.ok []) := by
  refine ⟨?_, ?_, fun res => rfl, ?_⟩
  · intro res h
    simp [SVNRepoSync.update_repo, h]
  · intro a c h
    simp [SVNRepoSync.commit_changes, h]
  · intro rc s h
    simp [SVNRepoSync.get_recent_commits, h]

/-- C4 witness: the three failure conversions at concrete command results. -/
theorem C4_witness :
    SVNRepoSync.update_repo ⟨"", "boom", 1⟩ =
      Except.error ("SVN update failed: " ++ "boom") ∧
    SVNRepoSync.commit_changes ⟨"", "", 0⟩ ⟨"", "bad", 1⟩ =
      Except.error ("SVN commit failed: " ++ "bad") ∧
    SVNRepoSync.get_recent_commits 1 "whatever" = Except.ok [] :=
  ⟨C4_stage_failures.1 ⟨"", "boom", 1⟩ (by decide),
   C4_stage_failures.2.1 ⟨"", "", 0⟩ ⟨"", "bad", 1⟩ (by decide),
   C4_stage_failures.2.2.2 1 "whatever" (by decide)⟩

/-- C5 counterexample: in the end-to-end scenario the delete of `baz.txt`,
absent from the empty target, adds nothing to `files_to_commit` — the
touched-path set is not `{foo/bar.txt, baz.txt}` as claimed. -/
theorem C5_counterexample :
    "baz.txt" ∉ (RepoSyncer.sync_changes env5 RepoSyncer.initState).2.files_to_commit := by
  decide

/-- C5 (amended): replaying the end-to-end source log against an empty target
and committing yields a successful run whose target holds `foo/bar.txt` with
the revision-11 content and no `baz.txt`, whose touched-path list is
`[foo/bar.txt, foo/bar.txt]` (the set `{foo/bar.txt}`), and whose command
trace is the `svn add` for the new file followed by the one consolidated
`svn commit` — the delete of the already-absent `baz.txt` contributes
nothing. -/
theorem C5_end_to_end :
    (RepoSyncer.sync_changes env5 RepoSyncer.initState).1 = true ∧
    fsGet (RepoSyncer.sync_changes env5 RepoSyncer.initState).2.fs2 "foo/bar.txt" =
      some "content-at-r11" ∧
    fsGet (RepoSyncer.sync_changes env5 RepoSyncer.initState).2.fs2 "baz.txt" = none ∧
    (RepoSyncer.sync_changes env5 RepoSyncer.initState).2.files_to_commit =
      ["foo/bar.txt", "foo/bar.txt"] ∧
    (RepoSyncer.sync_changes env5 RepoSyncer.initState).2.cmds =
      [SvnCmd.add ["foo/bar.txt"],
       SvnCmd.commit "Synced changes from repo1" ["foo/bar.txt", "foo/bar.txt"]] :=
  ⟨rfl, rfl, rfl, rfl, rfl⟩

/-- C6 (confirmed): replaying a Delete for a path absent from the target is a
no-op success in both variants — the state (filesystem, command trace and
touched paths) is unchanged and no error is raised (first two conjuncts) — and
replaying `[Add "x", Delete "x"]` end-to-end leaves `x` absent with a
successful run (last conjuncts). -/
theorem C6_delete_absent :
    (∀ (srcFs : List (String × String)) (delOk : String → Bool) (rev : Option String)
        (p : String) (st : RepoSyncer.SyncState),
      fsGet st.fs2 p = none →
      RepoSyncer.applyChange srcFs delOk ⟨rev, "D", p⟩ st = (st, none)) ∧
    (∀ (cat : String → Option String) (delOk : String → Bool) (p : String)
        (st : SVNRepoSync.SvnSyncState),
      fsGet st.fs2 (SVNRepoSync.lstripSlash p) = none →
      SVNRepoSync.applyChange cat delOk ⟨p, "DELETE"⟩ st = st) ∧
    (RepoSyncer.sync_changes env6 RepoSyncer.initState).1 = true ∧
    fsGet (RepoSyncer.sync_changes env6 RepoSyncer.initState).2.fs2 "x" = none := by
  refine ⟨?_, ?_, rfl, rfl⟩
  · intro srcFs delOk rev p st h
    simp [RepoSyncer.applyChange, h]
  · intro cat delOk p st h
    simp [SVNRepoSync.applyChange, h]

/-- C6 witness: deleting the absent path `gone.txt` from an empty target
leaves the state untouched and raises nothing. -/
theorem C6_witness :
    RepoSyncer.applyChange [] (fun _ => true) ⟨some "1", "D", "gone.txt"⟩
      RepoSyncer.initState = (RepoSyncer.initState, none) :=
  C6_delete_absent.1 [] (fun _ => true) (some "1") "gone.txt"
    RepoSyncer.initState (by rfl)

/-- C7 (confirmed): a commit-stage failure is terminal with no rollback.  When
the final `svn commit` exits non-zero, the run returns `False` and the state
is exactly the post-replay state plus the one commit command — every
filesystem mutation and every staged path from replay is left intact (first
conjunct); the pipeline never issues the target's `revert` verb (second
conjunct); and in the SVNRepoSync variant the commit failure raises out of
`commit_changes` (third conjunct). -/
theorem C7_commit_failure_no_rollback :
    (∀ (env : RepoSyncer.SyncEnv) (st0 st : RepoSyncer.SyncState),
      RepoSyncer.replayPhase env st0 = (st, none) →
      st.files_to_commit ≠ [] → env.commitOk = false →
      RepoSyncer.sync_changes env st0 =
        (false, { st with cmds := st.cmds ++
            [SvnCmd.commit "Synced changes from repo1" st.files_to_commit] })) ∧
    (∀ (env : RepoSyncer.SyncEnv) (st0 : RepoSyncer.SyncState), st0.cmds = [] →
      ∀ ps, SvnCmd.revert ps ∉ (RepoSyncer.sync_changes env st0).2.cmds) ∧
    (∀ addRes commitRes : CmdResult, commitRes.code ≠ 0 →
      ∃ msg, SVNRepoSync.commit_changes addRes commitRes = Except.error msg) := by
  refine ⟨?_, ?_, ?_⟩
  · intro env st0 st h hne hcf
    simp [RepoSyncer.sync_changes, h, hne, hcf]
  · intro env st0 h0 ps
    have h := syncLoop_cmds_clean env.srcFs env.delOk
      (RepoSyncer.parse_log_entry (svnClientLog env.logResult)) st0
      (by simp [h0]) (by simp [h0])
    cases hrp : RepoSyncer.syncLoop env.srcFs env.delOk
        (RepoSyncer.parse_log_entry (svnClientLog env.logResult)) st0 with
    | mk st err =>
      rw [hrp] at h
      cases err with
      | some e =>
        simpa [RepoSyncer.sync_changes, RepoSyncer.replayPhase, hrp] using h.1 ps
      | none =>
        by_cases hf : st.files_to_commit = []
        · simpa [RepoSyncer.sync_changes, RepoSyncer.replayPhase, hrp, hf] using h.1 ps
        · simp [RepoSyncer.sync_changes, RepoSyncer.replayPhase, hrp, hf,
            List.mem_append, h.1 ps]
  · intro a c h
    exact ⟨"SVN commit failed: " ++ c.stderr, by simp [SVNRepoSync.commit_changes, h]⟩

/-- C7 witness: replay of one add succeeds, the commit fails, and the run ends
failed with the replayed file still on disk, still staged, and no revert. -/
theorem C7_witness :
    RepoSyncer.sync_changes env7 RepoSyncer.initState =
      (false, (⟨[("x", "c")],
        [SvnCmd.add ["x"], SvnCmd.commit "Synced changes from repo1" ["x"]],
        ["x"]⟩ : RepoSyncer.SyncState)) :=
  C7_commit_failure_no_rollback.1 env7 RepoSyncer.initState
    ⟨[("x", "c")], [SvnCmd.add ["x"]], ["x"]⟩ (by rfl) (by decide) (by rfl)

/-- C8 (confirmed): when replay produces an empty `files_to_commit`,
`RepoSyncer.sync_changes` returns `True` with the replay state unchanged
(first conjunct) and no `svn commit` command is ever issued during such a run
(second conjunct) — an empty run is indistinguishable at the return value
from a run that committed. -/
theorem C8_empty_run_success :
    (∀ (env : RepoSyncer.SyncEnv) (st0 st : RepoSyncer.SyncState),
      RepoSyncer.replayPhase env st0 = (st, none) →
      st.files_to_commit = [] →
      RepoSyncer.sync_changes env st0 = (true, st)) ∧
    (∀ (env : RepoSyncer.SyncEnv) (st0 st : RepoSyncer.SyncState),
      RepoSyncer.replayPhase env st0 = (st, none) →
      st.files_to_commit = [] → st0.cmds = [] →
      ∀ m ps, SvnCmd.commit m ps ∉ (RepoSyncer.sync_changes env st0).2.cmds) := by
  constructor
  · intro env st0 st h hf
    simp [RepoSyncer.sync_changes, h, hf]
  · intro env st0 st h hf h0 m ps
    have hc := (syncLoop_cmds_clean env.srcFs env.delOk
      (RepoSyncer.parse_log_entry (svnClientLog env.logResult)) st0
      (by simp [h0]) (by simp [h0])).2
    rw [RepoSyncer.replayPhase] at h
    rw [h] at hc
    simp only [RepoSyncer.sync_changes, RepoSyncer.replayPhase, h, hf, if_pos]
    exact hc m ps

/-- C8 witness: with empty log output nothing parses, no commit is issued and
the run reports success. -/
theorem C8_witness :
    RepoSyncer.sync_changes env8 RepoSyncer.initState = (true, RepoSyncer.initState) :=
  C8_empty_run_success.1 env8 RepoSyncer.initState RepoSyncer.initState (by rfl) (by rfl)

/-- C9 (confirmed): whenever a non-empty username and password are configured,
`_run_command` appends `--username u --password p` as the trailing elements of
the argument vector, after the full verb command — in particular after the
read-only `status` and `log` verbs' arguments and paths. -/
theorem C9_credentials_trailing :
    (∀ (cmd : List String) (u p : String), u ≠ "" → p ≠ "" →
      runCommandArgv cmd (some u) (some p) = cmd ++ ["--username", u, "--password", p]) ∧
    (∀ (path : Option String) (u p : String), u ≠ "" → p ≠ "" →
      runCommandArgv (statusCmd path) (some u) (some p) =
        statusCmd path ++ ["--username", u, "--password", p]) ∧
    (∀ (limit : Option Nat) (path : Option String) (u p : String), u ≠ "" → p ≠ "" →
      runCommandArgv (logCmd limit path) (some u) (some p) =
        logCmd limit path ++ ["--username", u, "--password", p]) := by
  have base : ∀ (cmd : List String) (u p : String), u ≠ "" → p ≠ "" →
      runCommandArgv cmd (some u) (some p) = cmd ++ ["--username", u, "--password", p] := by
    intro cmd u p hu hp
    simp [runCommandArgv, hu, hp]
  exact ⟨base, fun path u p hu hp => base _ u p hu hp,
    fun limit path u p hu hp => base _ u p hu hp⟩

/-- C9 witness: the credentials trail the `svn status` vector. -/
theorem C9_witness :
    runCommandArgv ["svn", "status"] (some "alice") (some "secret") =
      ["svn", "status"] ++ ["--username", "alice", "--password", "secret"] :=
  C9_credentials_trailing.1 ["svn", "status"] "alice" "secret" (by decide) (by decide)

/-- C10 (code bug): lowercase action tokens are never accepted, because no
path entry survives parsing at all.  On a block whose inner text carries a
`revision` attribute the path-value extraction
`re.search(r">(.*?)</path>", path_entry).group(1)` raises `AttributeError`
(the captured entry text can never contain `</path>`), and on real
`svn log --xml` output the `revision` attribute sits inside the opening
`<logentry ...>` tag, which the block regex excludes, so every logentry is
dropped — the uppercasing on line 95 of sync_between_repos.py is
unreachable. -/
theorem C10_block_parse_crash :
    SVNRepoSync.get_recent_commits 0 xmlCrash = Except.error "AttributeError" ∧
    SVNRepoSync.get_recent_commits 0 xmlReal = Except.ok [] :=
  ⟨rfl, rfl⟩
